import Mathlib

/-!
Verification development for the unimrcp vosk recognizer plugin.

The development shallowly embeds the two source files of the repository:

* `src/plugins/kaldi-recog/src/kaldi_recognizer.cc` — the `KaldiRecognizer`
  class wrapping the external Kaldi library (feature pipeline, silence
  weighting, nnet3 decoder, lattice/MBR result extraction).
* `src/plugins/vosk-recog/src/vosk_recog_engine.c` — the MRCP engine
  channel: request dispatch, the per-frame stream-write state machine,
  grammar early-termination matching.

External collaborators (the Kaldi decoder search, the regex library, the
XML parser, the activity detector) are modelled as oracle inputs: their
results are fields of the input values (frame inputs, parsed requests) or
function-valued fields of the shared model object.  Per-session state and
the control flow of the plugin code are translated statement by statement.

Crashes of the C code (null-pointer dereferences) are modelled with
`Except Crash`; the affected dereference sites are noted at the
corresponding definitions.
-/

set_option linter.unusedVariables false

/-! ## Kaldi recognizer (`kaldi_recognizer.cc`)

The Kaldi library objects owned by the recognizer are modelled by the
observable state the source manipulates through them:

* `OnlineNnet2FeaturePipeline` — accepted samples, accumulated adaptation
  statistics, and the input-finished flag.  `GetAdaptationState` /
  `SetAdaptationState` read and write the adaptation component.
* `SingleUtteranceNnet3Decoder` — the number of decoded frames and the
  current best path; `AdvanceDecoding` decodes every frame made ready by
  the pipeline.  The search outcome on given audio is deterministic for a
  fixed model, so best path, MBR consensus and endpoint flag are modelled
  as model-supplied functions of the accepted samples.
-/

/-- Adaptation state of the acoustic front end (the ivector extractor
statistics saved and restored across utterances). -/
structure AdaptationState where
  stats : List Int
deriving DecidableEq, Repr

/-- Blank adaptation state of a freshly constructed feature pipeline. -/
def initialAdaptation : AdaptationState := { stats := [] }

/-- Observable state of `OnlineNnet2FeaturePipeline`. -/
structure FeaturePipeline where
  adaptation : AdaptationState
  samples : List Int
  inputFinished : Bool
deriving DecidableEq, Repr

/-- `new OnlineNnet2FeaturePipeline(*feature_info_)`: fresh per-utterance
pipeline with blank adaptation state. -/
def freshFeaturePipeline : FeaturePipeline :=
  { adaptation := initialAdaptation, samples := [], inputFinished := false }

/-- `feature_pipeline_->AcceptWaveform(8000, wave)`: append the samples and
accumulate the adaptation statistics over the seen audio. -/
def pipelineAcceptWaveform (p : FeaturePipeline) (w : List Int) : FeaturePipeline :=
  { p with samples := p.samples ++ w,
           adaptation := { stats := p.adaptation.stats ++ w } }

/-- `feature_pipeline_->NumFramesReady()` (one frame per accepted sample in
this model). -/
def numFramesReady (p : FeaturePipeline) : Nat := p.samples.length

/-- One `(word, start, end, conf)` tuple of the MBR consensus.  The C++
times and confidences are floats; they are carried here as integers since
no claim depends on their arithmetic. -/
structure MbrEntry where
  wordId : Nat
  startT : Int
  endT : Int
  conf : Int
deriving DecidableEq, Repr

/-- The shared, immutable `Model`: word symbol table plus the
deterministic outcome of the Kaldi search on given audio (best path, MBR
consensus over the final lattice, endpoint decision). -/
structure KModel where
  wordSyms : Nat → String
  bestPathFn : List Int → List Nat
  mbrFn : List Int → List MbrEntry
  endpointFn : List Int → Bool

/-- Observable state of `SingleUtteranceNnet3Decoder`. -/
structure Decoder where
  framesDecoded : Nat
  bestPath : List Nat
  finalized : Bool
deriving DecidableEq, Repr

/-- A freshly constructed decoder. -/
def freshDecoder : Decoder := { framesDecoded := 0, bestPath := [], finalized := false }

/-- The `KaldiRecognizer` object: shared model reference plus the owned
per-session Kaldi objects and the `input_finalized_` flag. -/
structure KaldiRecognizer where
  model : KModel
  featurePipeline : FeaturePipeline
  decoder : Decoder
  inputFinalized : Bool

/-- `{"partial" : ""}` — the explicitly empty partial result returned
below the 50-frame threshold. -/
def emptyPartialJson : String := "\x7b\"partial\" : \"\"\x7d"

/-- Rendering of a best-path word sequence as the partial-result JSON,
exactly as the `PartialResult` stream code builds it. -/
def renderPartialJson (m : KModel) (ws : List Nat) : String :=
  "\x7b\"partial\" : \"" ++ String.intercalate " " (ws.map m.wordSyms) ++ "\"\x7d"

/-- One entry of the final-result JSON, as built in `Result()`. -/
def mbrEntryJson (m : KModel) (e : MbrEntry) : String :=
  "\x7b\"word\": \"" ++ m.wordSyms e.wordId ++ "\", \"start\" : " ++ toString e.startT
    ++ ", \"end\" : " ++ toString e.endT ++ ", \"conf\" : " ++ toString e.conf ++ "\x7d"

/-- The entry block of the final-result JSON: every entry is followed by
`",\n"` except the last, which is followed by `"\n"`; empty when there are
no entries. -/
def mbrEntriesBlock (m : KModel) (es : List MbrEntry) : String :=
  match es with
  | [] => ""
  | _ => String.intercalate ",\n" (es.map (mbrEntryJson m)) ++ "\n"

/-- The final-result JSON document built by `Result()`. -/
def renderResultJson (m : KModel) (es : List MbrEntry) : String :=
  "\x7b\"result\" : [ " ++ mbrEntriesBlock m es ++ " ], \"text\" : \""
    ++ String.intercalate " " (es.map (fun e => m.wordSyms e.wordId)) ++ "\" \x7d"

namespace KaldiRecognizer

/-- `decoder_->AdvanceDecoding()`: decode every frame the pipeline has
ready; the best path afterwards is the model's search outcome on the
accepted samples. -/
def advanceDecoding (r : KaldiRecognizer) : KaldiRecognizer :=
  { r with decoder := { framesDecoded := numFramesReady r.featurePipeline,
                        bestPath := r.model.bestPathFn r.featurePipeline.samples,
                        finalized := r.decoder.finalized } }

/-- `KaldiRecognizer::CleanUp()`: delete the decoder, extract the
adaptation state from the current feature pipeline, delete the pipeline,
allocate a fresh pipeline and re-apply the saved adaptation state,
re-allocate silence weighting and decoder.  The shared model is untouched
and `input_finalized_` is left to the caller. -/
def cleanUp (r : KaldiRecognizer) : KaldiRecognizer :=
  let saved := r.featurePipeline.adaptation
  { r with featurePipeline := { freshFeaturePipeline with adaptation := saved },
           decoder := freshDecoder }

/-- `KaldiRecognizer::AcceptWaveform(data, len)`: if the previous
utterance was finalized, `CleanUp()` and clear the flag first; then feed
the samples to the pipeline, update the silence-conditioned frame weights
(internal to the external decoder, no modelled field), advance decoding
and report whether `EndpointDetected` holds. -/
def acceptWaveform (r : KaldiRecognizer) (data : List Int) : KaldiRecognizer × Bool :=
  let r0 := if r.inputFinalized then { cleanUp r with inputFinalized := false } else r
  let r1 := { r0 with featurePipeline := pipelineAcceptWaveform r0.featurePipeline data }
  let r2 := advanceDecoding r1
  (r2, r2.model.endpointFn r2.featurePipeline.samples)

/-- `KaldiRecognizer::Result()`: on the first call, finish the pipeline
input, advance and finalize decoding and set `input_finalized_`; then (on
every call) extract the word-aligned MBR consensus from the lattice of
the current decoder state and render the JSON document. -/
def result (r : KaldiRecognizer) : KaldiRecognizer × String :=
  let r1 :=
    if r.inputFinalized then r
    else
      let ra := advanceDecoding
        { r with featurePipeline := { r.featurePipeline with inputFinished := true } }
      { ra with decoder := { ra.decoder with finalized := true }, inputFinalized := true }
  (r1, renderResultJson r1.model (r1.model.mbrFn r1.featurePipeline.samples))

/-- `KaldiRecognizer::PartialResult()`: advance decoding; below 50 decoded
frames return the explicitly empty partial result, otherwise render the
current best path. -/
def partialResult (r : KaldiRecognizer) : KaldiRecognizer × String :=
  let r1 := advanceDecoding r
  if r1.decoder.framesDecoded < 50 then (r1, emptyPartialJson)
  else (r1, renderPartialJson r1.model r1.decoder.bestPath)

end KaldiRecognizer

/-! ### Concrete Kaldi fixtures for witnesses -/

/-- A concrete model with trivial search outcomes, used by witnesses. -/
def kmTest : KModel :=
  { wordSyms := fun _ => "w", bestPathFn := fun _ => [], mbrFn := fun _ => [],
    endpointFn := fun _ => false }

/-- A freshly opened recognizer over the test model. -/
def rkFresh : KaldiRecognizer :=
  { model := kmTest, featurePipeline := freshFeaturePipeline,
    decoder := freshDecoder, inputFinalized := false }

/-- A recognizer with 50 frames of audio already accepted. -/
def rkLong : KaldiRecognizer :=
  { rkFresh with
    featurePipeline := { freshFeaturePipeline with samples := List.replicate 50 0 } }

/-- A recognizer whose utterance has been finalized after some audio. -/
def rkDone : KaldiRecognizer :=
  { rkFresh with
    featurePipeline := { adaptation := { stats := [7] }, samples := [7],
                         inputFinished := true },
    inputFinalized := true }

/-- C5: partial-result extraction (which first advances decoding over all
ready frames) returns the explicitly empty partial result whenever fewer
than 50 frames are available to decode, and only at or beyond that
threshold renders the current best path's word sequence. -/
theorem partialResult_threshold_c5 (r : KaldiRecognizer) :
    (numFramesReady r.featurePipeline < 50 →
      (KaldiRecognizer.partialResult r).2 = emptyPartialJson)
  ∧ (50 ≤ numFramesReady r.featurePipeline →
      (KaldiRecognizer.partialResult r).2
        = renderPartialJson r.model (r.model.bestPathFn r.featurePipeline.samples)) := by
  constructor
  · intro h
    simp [KaldiRecognizer.partialResult, KaldiRecognizer.advanceDecoding, h]
  · intro h
    simp [KaldiRecognizer.partialResult, KaldiRecognizer.advanceDecoding,
      Nat.not_lt.mpr h]

/-- Witness for C5: both threshold regimes are realizable (0 frames and 50
frames of accepted audio). -/
theorem partialResult_threshold_c5_witness :
    (numFramesReady rkFresh.featurePipeline < 50
      ∧ (KaldiRecognizer.partialResult rkFresh).2 = emptyPartialJson)
  ∧ (50 ≤ numFramesReady rkLong.featurePipeline
      ∧ (KaldiRecognizer.partialResult rkLong).2
          = renderPartialJson rkLong.model
              (rkLong.model.bestPathFn rkLong.featurePipeline.samples)) :=
  ⟨⟨by decide, (partialResult_threshold_c5 rkFresh).1 (by decide)⟩,
   ⟨by decide, (partialResult_threshold_c5 rkLong).2 (by decide)⟩⟩

/-- C6: final-result extraction finalizes on its first call; a second call
without an intervening reset leaves the recognizer state unchanged and
returns a final result equal to the first. -/
theorem result_idempotent_c6 (r : KaldiRecognizer) :
    KaldiRecognizer.result (KaldiRecognizer.result r).1 = KaldiRecognizer.result r := by
  by_cases h : r.inputFinalized
  · simp [KaldiRecognizer.result, h]
  · simp [KaldiRecognizer.result, KaldiRecognizer.advanceDecoding, h]

/-- C7: calling `AcceptWaveform` on a finalized recognizer auto-resets the
per-utterance decode state first — it behaves exactly as it would on the
`CleanUp`-reset state with the finalized flag cleared — and then accepts
the new audio: afterwards the flag is off, the fresh pipeline holds
exactly the new audio, and the adaptation statistics carried over from the
previous utterance have been extended by the new audio. -/
theorem acceptWaveform_auto_reset_c7 (r : KaldiRecognizer) (data : List Int)
    (h : r.inputFinalized = true) :
    KaldiRecognizer.acceptWaveform r data
      = KaldiRecognizer.acceptWaveform
          { KaldiRecognizer.cleanUp r with inputFinalized := false } data
  ∧ (KaldiRecognizer.acceptWaveform r data).1.inputFinalized = false
  ∧ (KaldiRecognizer.acceptWaveform r data).1.featurePipeline.samples = data
  ∧ (KaldiRecognizer.acceptWaveform r data).1.featurePipeline.adaptation.stats
      = r.featurePipeline.adaptation.stats ++ data := by
  refine ⟨?_, ?_, ?_, ?_⟩ <;>
    simp [KaldiRecognizer.acceptWaveform, KaldiRecognizer.cleanUp,
      KaldiRecognizer.advanceDecoding, pipelineAcceptWaveform,
      freshFeaturePipeline, h]

/-- Witness for C7: a finalized recognizer accepting one more frame of
audio. -/
theorem acceptWaveform_auto_reset_c7_witness :
    rkDone.inputFinalized = true
  ∧ (KaldiRecognizer.acceptWaveform rkDone [3]
      = KaldiRecognizer.acceptWaveform
          { KaldiRecognizer.cleanUp rkDone with inputFinalized := false } [3]
    ∧ (KaldiRecognizer.acceptWaveform rkDone [3]).1.inputFinalized = false
    ∧ (KaldiRecognizer.acceptWaveform rkDone [3]).1.featurePipeline.samples = [3]
    ∧ (KaldiRecognizer.acceptWaveform rkDone [3]).1.featurePipeline.adaptation.stats
        = rkDone.featurePipeline.adaptation.stats ++ [3]) :=
  ⟨rfl, acceptWaveform_auto_reset_c7 rkDone [3] rfl⟩

/-- C8: `CleanUp` replaces the decoder and feature pipeline wholesale
while preserving the adaptation state: the post-reset pipeline carries
exactly the adaptation state saved from the old pipeline (hence a
non-blank state stays non-blank) with fresh per-utterance contents, the
decoder is fresh, and the shared model is unchanged. -/
theorem cleanUp_preserves_adaptation_c8 (r : KaldiRecognizer) :
    (KaldiRecognizer.cleanUp r).featurePipeline.adaptation = r.featurePipeline.adaptation
  ∧ (KaldiRecognizer.cleanUp r).featurePipeline.samples = []
  ∧ (KaldiRecognizer.cleanUp r).featurePipeline.inputFinished = false
  ∧ (KaldiRecognizer.cleanUp r).decoder = freshDecoder
  ∧ (KaldiRecognizer.cleanUp r).model = r.model
  ∧ (r.featurePipeline.adaptation ≠ initialAdaptation →
      (KaldiRecognizer.cleanUp r).featurePipeline.adaptation ≠ initialAdaptation) :=
  ⟨rfl, rfl, rfl, rfl, rfl, fun h => h⟩

/-- Witness for C8: a session whose pipeline has accumulated non-blank
adaptation statistics keeps them through the reset. -/
theorem cleanUp_preserves_adaptation_c8_witness :
    rkDone.featurePipeline.adaptation ≠ initialAdaptation
  ∧ (KaldiRecognizer.cleanUp rkDone).featurePipeline.adaptation ≠ initialAdaptation :=
  ⟨by decide, (cleanUp_preserves_adaptation_c8 rkDone).2.2.2.2.2 (by decide)⟩

/-! ## Vosk MRCP engine channel (`vosk_recog_engine.c`)

The channel state mirrors `struct vosk_recog_channel_t`; the external
collaborators appear as oracle data:

* the activity detector's per-frame verdict (`mpf_activity_detector_process`),
  the recognizer's accept/endpoint return and its partial/final result
  strings are fields of the frame input;
* the regex library is a function `pattern → text → Option Bool`
  (`none` models a pattern that fails to compile);
* the XML parser's outcome on a DEFINE-GRAMMAR body is carried inside the
  parsed request.

The utterance-file plumbing (`audio_out`, `fopen`/`fwrite`) has no
observable effect on the modelled state and is omitted.
-/

/-- One attribute of a parsed XML element (`apr_xml_attr`). -/
structure XmlAttr where
  name : String
  value : String
deriving DecidableEq, Repr

/-- One child element of a `<rule>` element; only its first cdata text is
read by the matcher (`child->first_cdata.first->text`, absent when the
child has no cdata). -/
structure XmlChild where
  cdataText : Option String
deriving DecidableEq, Repr

/-- One child element of the document root (`elem`), as traversed by
`prase_grammar`. -/
structure XmlRuleElem where
  name : String
  attrs : List XmlAttr
  children : List XmlChild
deriving DecidableEq, Repr

/-- A parsed XML document (`apr_xml_doc`): root element name and the
root's children. -/
structure XmlDoc where
  rootName : String
  rootChildren : List XmlRuleElem
deriving DecidableEq, Repr

/-- `strcasecmp(a, b) == 0`. -/
def eqci (a b : String) : Bool := a.toLower == b.toLower

/-- `check_grammar`: the document must exist and its root element must be
named `grammar` (case-insensitively). -/
def check_grammar (doc : Option XmlDoc) : Bool :=
  match doc with
  | none => false
  | some d => eqci d.rootName "grammar"

/-- The regex library: applied to a pattern and a text, `none` when the
pattern fails to compile (`regcomp != REG_NOERROR`), otherwise whether
`regexec` matches. -/
def RegexOracle : Type := String → String → Option Bool

/-- Null-pointer dereferences the C code can perform. -/
inductive Crash
  | nullRecogRequest
  | nullGrammarDoc
deriving DecidableEq, Repr

/-- The attribute scan of one `<rule>` element: `id` starts as null and is
overwritten by the value of every attribute named `id`, so the last such
attribute wins. -/
def lastIdAttr (attrs : List XmlAttr) : Option String :=
  attrs.foldl (fun id a => if eqci a.name "id" then some a.value else id) none

/-- The inner loop of `prase_grammar` over one rule's children.
`some out` means the C function returns `out` now (`out = none` when
`regcomp` failed, `out = id` on a match — the rule's `id` may itself be
null); `none` means the loop fell through to the next rule. -/
def scanRuleChildren (rc : RegexOracle) (id : Option String) (cs : List XmlChild)
    (result : String) : Option (Option String) :=
  match cs with
  | [] => none
  | c :: rest =>
    match c.cdataText with
    | none => scanRuleChildren rc id rest result
    | some text =>
      match rc (text ++ ".") result with
      | none => some none
      | some true => some id
      | some false => scanRuleChildren rc id rest result

/-- The outer loop of `prase_grammar` over the root's children: elements
not named `rule` are skipped; for a `rule` element the children are
scanned and any early return of the inner loop is propagated. -/
def scanRules (rc : RegexOracle) (es : List XmlRuleElem) (result : String) :
    Option String :=
  match es with
  | [] => none
  | e :: rest =>
    if eqci e.name "rule" then
      match scanRuleChildren rc (lastIdAttr e.attrs) e.children result with
      | some out => out
      | none => scanRules rc rest result
    else scanRules rc rest result

/-- `prase_grammar(doc, result)`: the C function immediately evaluates
`doc->root->first_child` with no null check, so a null document is a null
dereference; on a real document it scans the rules for the first whose
pattern matches the partial text. -/
def praseGrammar (rc : RegexOracle) (doc : Option XmlDoc) (result : String) :
    Except Crash (Option String) :=
  match doc with
  | none => Except.error Crash.nullGrammarDoc
  | some d => Except.ok (scanRules rc d.rootChildren result)

/-- `mrcp_recog_completion_cause_e` values relevant to this plugin.  Only
`success` and `noInputTimeout` are ever passed by the code; `stopped` is
listed to state its absence. -/
inductive CompletionCause
  | success
  | noInputTimeout
  | stopped
deriving DecidableEq, Repr

/-- Messages the channel sends upward through
`mrcp_engine_channel_message_send` and the open/close respond calls. -/
inductive OutMsg
  | startOfInput
  | recognitionComplete (cause : CompletionCause) (body : Option String)
  | stopResponse
  | requestResponse (methodFailed : Bool)
  | openResponse
  | closeResponse
deriving DecidableEq, Repr

/-- `struct vosk_recog_channel_t` (audio_out omitted; the detector's two
configurable timeouts stand in for the detector object). -/
structure VoskChannel where
  recogRequest : Option Unit
  stopResponse : Option Unit
  timersStarted : Bool
  grammar : Option XmlDoc
  recognizer : Bool
  detectorNoinput : Nat
  detectorSilence : Nat
deriving DecidableEq, Repr

/-- `vosk_recog_engine_channel_create`: all pointers null, detector
freshly created with its default timeouts; `timers_started` is never
initialized by the C code, so it enters as a parameter. -/
def voskRecogEngineChannelCreate (uninitTimers : Bool) (dNoinput dSilence : Nat) :
    VoskChannel :=
  { recogRequest := none, stopResponse := none, timersStarted := uninitTimers,
    grammar := none, recognizer := false,
    detectorNoinput := dNoinput, detectorSilence := dSilence }

/-- `mpf_detector_event_e`. -/
inductive DetEvent
  | noneEvent
  | activity
  | inactivity
  | noinput
deriving DecidableEq, Repr

/-- Oracle data of one audio frame: the detector's verdict on it, the
recognizer's `vosk_recognizer_accept_waveform` return (true = nonzero,
endpoint), and the library's partial/final result strings. -/
structure FrameInput where
  detEvent : DetEvent
  acceptRet : Bool
  partialText : String
  finalText : String
deriving DecidableEq, Repr

/-- `vosk_recog_recognition_complete`: build the RECOGNITION-COMPLETE
event from the active request (`mrcp_event_create(recog_request, ...)`
dereferences it, so a null active request is a crash), set the completion
cause, attach the result body — extended by the early-match marker when
present — only on a success cause, clear the active request and send the
event. -/
def voskRecogRecognitionComplete (ch : VoskChannel) (finalText : String)
    (cause : CompletionCause) (early : Option String) :
    Except Crash (VoskChannel × OutMsg) :=
  match ch.recogRequest with
  | none => Except.error Crash.nullRecogRequest
  | some _ =>
    let body : Option String :=
      if cause = CompletionCause.success then
        match early with
        | some e => some (finalText ++ e)
        | none => some finalText
      else none
    Except.ok ({ ch with recogRequest := none }, OutMsg.recognitionComplete cause body)

/-- `vosk_recog_start_of_input`: build and send the START-OF-INPUT event
from the active request. -/
def voskRecogStartOfInput (ch : VoskChannel) : Except Crash OutMsg :=
  match ch.recogRequest with
  | none => Except.error Crash.nullRecogRequest
  | some _ => Except.ok OutMsg.startOfInput

/-- `vosk_recog_stream_write`: per-frame processing.  Returns the list of
messages sent during the frame and the resulting channel state (or the
crash that ended processing).  The structure follows the C function: the
pending-stop early return; then, under an active request, the detector
switch (with its `end` flag), the event-frame logging and audio-file
write (no modelled effect), and the recognizer block — endpoint
completion, else partial result plus grammar early termination. -/
def streamWrite (rc : RegexOracle) (ch : VoskChannel) (fr : FrameInput) :
    List OutMsg × Except Crash VoskChannel :=
  if ch.stopResponse.isSome then
    ([OutMsg.stopResponse],
     Except.ok { ch with stopResponse := none, recogRequest := none })
  else if ch.recogRequest.isSome then
    let afterSwitch : List OutMsg × Bool × Except Crash VoskChannel :=
      match fr.detEvent with
      | DetEvent.activity =>
        match voskRecogStartOfInput ch with
        | Except.ok m => ([m], false, Except.ok ch)
        | Except.error c => ([], false, Except.error c)
      | DetEvent.inactivity =>
        match voskRecogRecognitionComplete ch fr.finalText CompletionCause.success none with
        | Except.ok (ch1, m) => ([m], true, Except.ok ch1)
        | Except.error c => ([], true, Except.error c)
      | DetEvent.noinput =>
        if ch.timersStarted then
          match voskRecogRecognitionComplete ch fr.finalText
              CompletionCause.noInputTimeout none with
          | Except.ok (ch1, m) => ([m], true, Except.ok ch1)
          | Except.error c => ([], true, Except.error c)
        else ([], false, Except.ok ch)
      | DetEvent.noneEvent => ([], false, Except.ok ch)
    match afterSwitch with
    | (out1, _, Except.error c) => (out1, Except.error c)
    | (out1, endFlag, Except.ok ch1) =>
      if ch1.recognizer then
        if fr.acceptRet then
          match voskRecogRecognitionComplete ch1 fr.finalText
              CompletionCause.success none with
          | Except.ok (ch2, m) => (out1 ++ [m], Except.ok ch2)
          | Except.error c => (out1, Except.error c)
        else if endFlag = false then
          match praseGrammar rc ch1.grammar fr.partialText with
          | Except.error c => (out1, Except.error c)
          | Except.ok none => (out1, Except.ok ch1)
          | Except.ok (some early) =>
            match voskRecogRecognitionComplete ch1 fr.finalText CompletionCause.success
                (some ("<earlyres>" ++ early ++ "</earlyres>")) with
            | Except.ok (ch2, m) => (out1 ++ [m], Except.ok ch2)
            | Except.error c => (out1, Except.error c)
        else (out1, Except.ok ch1)
      else (out1, Except.ok ch1)
  else ([], Except.ok ch)

/-- The recognizer-resource header fields this plugin reads, each with its
`mrcp_resource_header_property_check` presence bit. -/
structure RecogHeader where
  startInputTimersPresent : Bool
  startInputTimers : Bool
  noInputTimeoutPresent : Bool
  noInputTimeout : Nat
  speechCompleteTimeoutPresent : Bool
  speechCompleteTimeout : Nat
deriving DecidableEq, Repr

/-- Outcome of the DEFINE-GRAMMAR body processing steps performed by the
external libraries: whether `regexec` finds `<grammar.*</grammar>` in the
body, the extent of that match, whether `apr_xml_parser_create` /
`apr_xml_parser_feed` succeed, and the document `apr_xml_parser_done`
produces on success. -/
structure DefineGrammarData where
  regexMatches : Bool
  matchLen : Nat
  parserCreated : Bool
  feedOk : Bool
  doneResult : Option XmlDoc
deriving DecidableEq, Repr

/-- `mrcp_recognizer_method_id` values handled by the dispatch switch. -/
inductive MethodId
  | setParams
  | getParams
  | defineGrammar
  | recognize
  | getResult
  | startInputTimers
  | stop
deriving DecidableEq, Repr

/-- An inbound MRCP request as the dispatch sees it: its method, whether a
codec descriptor has been negotiated (`mrcp_engine_sink_stream_codec_get`),
its recognizer header if any, and the DEFINE-GRAMMAR body outcome. -/
structure Request where
  methodId : MethodId
  hasDescriptor : Bool
  recogHeader : Option RecogHeader
  dg : DefineGrammarData
deriving DecidableEq, Repr

/-- The header block of `vosk_recog_channel_recognize`: each of the three
recognizer header properties is applied only when present. -/
def applyRecogHeader (ch : VoskChannel) (rh : Option RecogHeader) : VoskChannel :=
  match rh with
  | none => ch
  | some h =>
    let ch1 := if h.startInputTimersPresent
      then { ch with timersStarted := h.startInputTimers } else ch
    let ch2 := if h.noInputTimeoutPresent
      then { ch1 with detectorNoinput := h.noInputTimeout } else ch1
    if h.speechCompleteTimeoutPresent
      then { ch2 with detectorSilence := h.speechCompleteTimeout } else ch2

/-- `vosk_recog_channel_recognize`: without a codec descriptor the
response status is set to METHOD-FAILED and FALSE is returned (the
dispatch then sends the response); otherwise `timers_started` is set
unconditionally, the header properties are applied, the recognizer is
created if absent (`vosk_recognizer_new` with max alternatives 5 and
nlsml output), the IN-PROGRESS response is sent and the request becomes
the active one.  Returns (channel, response-method-failed flag, messages
sent inside the call, processed flag). -/
def voskRecogChannelRecognize (ch : VoskChannel) (req : Request) :
    VoskChannel × Bool × List OutMsg × Bool :=
  if !req.hasDescriptor then
    (ch, true, [], false)
  else
    let ch1 := { ch with timersStarted := true }
    let ch2 := applyRecogHeader ch1 req.recogHeader
    let ch3 := { ch2 with recognizer := true }
    ({ ch3 with recogRequest := some () }, false, [OutMsg.requestResponse false], true)

/-- `vosk_recog_channel_stop`: store the response as the pending stop
response; it is sent from the stream-write path once there is no more
activity. -/
def voskRecogChannelStop (ch : VoskChannel) : VoskChannel × List OutMsg × Bool :=
  ({ ch with stopResponse := some () }, [], true)

/-- `vosk_recog_channel_timers_start`: set `timers_started` and send the
response. -/
def voskRecogChannelTimersStart (ch : VoskChannel) : VoskChannel × List OutMsg × Bool :=
  ({ ch with timersStarted := true }, [OutMsg.requestResponse false], true)

/-- `vosk_recog_channel_request_dispatch`: create the response, switch on
the method, and send the response at the end only when the method handler
did not (`processed == FALSE`).  The DEFINE-GRAMMAR case follows the C
control flow exactly: the fixed pattern `<grammar.*</grammar>` always
compiles; each failure — no regex match, over-long match, parser
creation/feed/done failure, root element not named `grammar` — returns
from the dispatch at once, skipping the final send (the parsed document
has already been stored on the channel by `apr_xml_parser_done` when only
`check_grammar` fails). -/
def voskRecogChannelRequestDispatch (ch : VoskChannel) (req : Request) :
    VoskChannel × List OutMsg :=
  match req.methodId with
  | MethodId.setParams => (ch, [OutMsg.requestResponse false])
  | MethodId.getParams => (ch, [OutMsg.requestResponse false])
  | MethodId.getResult => (ch, [OutMsg.requestResponse false])
  | MethodId.defineGrammar =>
    if !req.dg.regexMatches then (ch, [])
    else if 4096 ≤ req.dg.matchLen then (ch, [])
    else if !req.dg.parserCreated then (ch, [])
    else if !req.dg.feedOk then (ch, [])
    else
      match req.dg.doneResult with
      | none => (ch, [])
      | some doc =>
        let ch1 := { ch with grammar := some doc }
        if check_grammar (some doc) then (ch1, [OutMsg.requestResponse false])
        else (ch1, [])
  | MethodId.recognize =>
    match voskRecogChannelRecognize ch req with
    | (ch1, mf, sent, processed) =>
      if processed then (ch1, sent)
      else (ch1, sent ++ [OutMsg.requestResponse mf])
  | MethodId.startInputTimers =>
    match voskRecogChannelTimersStart ch with
    | (ch1, sent, _) => (ch1, sent)
  | MethodId.stop =>
    match voskRecogChannelStop ch with
    | (ch1, sent, _) => (ch1, sent)

/-- The three task-message kinds of `vosk_recog_msg_type_e`, with the
request payload carried by `REQUEST_PROCESS`. -/
inductive VoskMsg
  | openChannel
  | closeChannel
  | requestProcess (req : Request)
deriving DecidableEq, Repr

/-- `vosk_recog_msg_process`: open responds immediately; close closes the
audio file, frees the recognizer and responds; request messages go to the
dispatch. -/
def voskRecogMsgProcess (ch : VoskChannel) (m : VoskMsg) : VoskChannel × List OutMsg :=
  match m with
  | VoskMsg.openChannel => (ch, [OutMsg.openResponse])
  | VoskMsg.closeChannel => ({ ch with recognizer := false }, [OutMsg.closeResponse])
  | VoskMsg.requestProcess req => voskRecogChannelRequestDispatch ch req

/-! ### Concrete channel fixtures -/

/-- A regex oracle on which every pattern compiles and nothing matches. -/
def rcFalse : RegexOracle := fun _ _ => some false

/-- A freshly created channel (detector defaults taken as 0). -/
def chInit : VoskChannel := voskRecogEngineChannelCreate false 0 0

/-- A channel with a RECOGNIZE in progress: active request, recognizer
allocated, timers armed, no grammar defined. -/
def chActive : VoskChannel :=
  { recogRequest := some (), stopResponse := none, timersStarted := true,
    grammar := none, recognizer := true, detectorNoinput := 0, detectorSilence := 0 }

/-- `chActive` after a STOP request was dispatched (pending stop
response). -/
def chStopPending : VoskChannel := { chActive with stopResponse := some () }

/-- `chActive` without an allocated recognizer. -/
def chNoRec : VoskChannel := { chActive with recognizer := false }

/-- A frame on which the detector reports voice inactivity and the
recognizer's `accept_waveform` also returns nonzero (endpoint). -/
def frInactivityEndpoint : FrameInput :=
  { detEvent := DetEvent.inactivity, acceptRet := true, partialText := "",
    finalText := "RES" }

/-- An uneventful silence frame. -/
def frSilence : FrameInput :=
  { detEvent := DetEvent.noneEvent, acceptRet := false, partialText := "",
    finalText := "" }

/-- A frame on which the detector reports the no-input timeout. -/
def frNoinput : FrameInput :=
  { detEvent := DetEvent.noinput, acceptRet := false, partialText := "",
    finalText := "" }

/-- C1: the code violates the exactly-one-completion rule.  On a frame
where the detector reports inactivity, the switch emits the success
completion and clears the active request; the recognizer block below is
not guarded by the `end` flag on its endpoint branch, so when
`accept_waveform` also reports an endpoint the code calls
`vosk_recog_recognition_complete` a second time for the same utterance —
now with a null active request, which `mrcp_event_create` dereferences.
The evaluation shows one completion already sent followed by the null
dereference of the second attempt. -/
theorem streamWrite_double_completion_c1 :
    streamWrite rcFalse chActive frInactivityEndpoint
      = ([OutMsg.recognitionComplete CompletionCause.success (some "RES")],
         Except.error Crash.nullRecogRequest) :=
  rfl

/-- C2 counterexample: with a stop pending, the next frame sends only the
pending STOP response — no recognition-complete event, and in particular
none with a `stopped` completion cause, is emitted. -/
theorem streamWrite_stop_counterexample_c2 :
    (streamWrite rcFalse chStopPending frSilence).1 = [OutMsg.stopResponse]
  ∧ OutMsg.recognitionComplete CompletionCause.stopped none
      ∉ (streamWrite rcFalse chStopPending frSilence).1 := by
  decide

/-- C2 (amended): for every session with a pending stop request,
processing of the next audio frame sends exactly one message — the
pending STOP response — emits no recognition-complete event, and clears
both the stop-response and the active-request references. -/
theorem streamWrite_stop_frame_c2 (rc : RegexOracle) (ch : VoskChannel)
    (fr : FrameInput) (h : ch.stopResponse.isSome = true) :
    streamWrite rc ch fr
      = ([OutMsg.stopResponse],
         Except.ok { ch with stopResponse := none, recogRequest := none }) := by
  simp [streamWrite, h]

/-- Witness for C2: a concrete session with a pending stop. -/
theorem streamWrite_stop_frame_c2_witness :
    chStopPending.stopResponse.isSome = true
  ∧ streamWrite rcFalse chStopPending frSilence
      = ([OutMsg.stopResponse],
         Except.ok { chStopPending with stopResponse := none, recogRequest := none }) :=
  ⟨rfl, streamWrite_stop_frame_c2 rcFalse chStopPending frSilence rfl⟩

/-- The DEFINE-GRAMMAR body fields of a request that carries no grammar
markup (the body regex does not match). -/
def reqDefineGrammarBad : Request :=
  { methodId := MethodId.defineGrammar, hasDescriptor := false, recogHeader := none,
    dg := { regexMatches := false, matchLen := 0, parserCreated := true,
            feedOk := true, doneResult := none } }

/-- C3: the code violates the exactly-one-response rule on DEFINE-GRAMMAR
error paths: when the body does not match `<grammar.*</grammar>` the
dispatch returns before the final send, so zero response messages are
sent for the request — against the plugin's own mandatory rule 3 ("One
and only one response MUST be sent back to the received request"). -/
theorem dispatch_defineGrammar_no_response_c3 :
    (voskRecogMsgProcess chInit (VoskMsg.requestProcess reqDefineGrammarBad)).2 = [] := by
  decide

/-- A well-formed but empty grammar document. -/
def emptyGrammarDoc : XmlDoc := { rootName := "grammar", rootChildren := [] }

/-- C4: the matcher does not tolerate an absent grammar: `prase_grammar`
dereferences `doc->root->first_child` with no null check, so a null
document (the state of every channel before a successful DEFINE-GRAMMAR)
is a null dereference, for every regex oracle and partial text; an empty
grammar document, by contrast, is tolerated and yields no match. -/
theorem praseGrammar_null_crash_c4 (rc : RegexOracle) (text : String) :
    praseGrammar rc none text = Except.error Crash.nullGrammarDoc
  ∧ praseGrammar rc (some emptyGrammarDoc) text = Except.ok none :=
  ⟨rfl, rfl⟩

/-- C9: on a frame whose detector verdict is the no-input timeout (with
no stop pending and an active request), a recognition-complete event with
the no-input-timeout cause is emitted if and only if `timers_started` is
true at that instant; with timers off, no such completion is emitted no
matter what else the frame processing does. -/
theorem streamWrite_noinput_iff_timers_c9 (rc : RegexOracle) (ch : VoskChannel)
    (fr : FrameInput) (hstop : ch.stopResponse = none)
    (hreq : ch.recogRequest = some ()) (hdet : fr.detEvent = DetEvent.noinput) :
    (OutMsg.recognitionComplete CompletionCause.noInputTimeout none
        ∈ (streamWrite rc ch fr).1)
      ↔ ch.timersStarted = true := by
  cases hts : ch.timersStarted <;> cases hrec : ch.recognizer <;>
    cases hacc : fr.acceptRet <;>
    simp [streamWrite, voskRecogRecognitionComplete, hstop, hreq, hdet, hts,
      hrec, hacc]
  case false.true.false =>
    cases hpg : praseGrammar rc ch.grammar fr.partialText with
    | error c => simp [hpg]
    | ok o =>
      cases o with
      | none => simp [hpg]
      | some early => simp [hpg, voskRecogRecognitionComplete, hreq]

/-- Witness for C9: a session with timers armed and a no-input frame. -/
theorem streamWrite_noinput_iff_timers_c9_witness :
    chNoRec.stopResponse = none ∧ chNoRec.recogRequest = some ()
  ∧ frNoinput.detEvent = DetEvent.noinput
  ∧ ((OutMsg.recognitionComplete CompletionCause.noInputTimeout none
        ∈ (streamWrite rcFalse chNoRec frNoinput).1)
      ↔ chNoRec.timersStarted = true) :=
  ⟨rfl, rfl, rfl,
   streamWrite_noinput_iff_timers_c9 rcFalse chNoRec frNoinput rfl rfl rfl⟩

/-- The value `timers_started` holds after RECOGNIZE header processing:
true unless the request carries a Start-Input-Timers header whose value
is false. -/
def timersAfterRecognizeHeader (rh : Option RecogHeader) : Bool :=
  match rh with
  | none => true
  | some h => if h.startInputTimersPresent then h.startInputTimers else true

/-- C10: processing a RECOGNIZE request with an available codec
descriptor sets `timers_started` unconditionally before reading headers,
so it ends up false exactly when the request carries a Start-Input-Timers
header with value false; and a START-INPUT-TIMERS request always sets
`timers_started` to true. -/
theorem recognize_sets_timers_c10 (ch chT : VoskChannel) (req reqT : Request)
    (hm : req.methodId = MethodId.recognize) (hd : req.hasDescriptor = true)
    (hmT : reqT.methodId = MethodId.startInputTimers) :
    (voskRecogChannelRequestDispatch ch req).1.timersStarted
        = timersAfterRecognizeHeader req.recogHeader
  ∧ (voskRecogChannelRequestDispatch chT reqT).1.timersStarted = true := by
  constructor
  · rcases hrh : req.recogHeader with _ | h
    · simp [voskRecogChannelRequestDispatch, hm, voskRecogChannelRecognize, hd,
        applyRecogHeader, timersAfterRecognizeHeader, hrh]
    · cases hp : h.startInputTimersPresent <;>
        cases hn : h.noInputTimeoutPresent <;>
        cases hs : h.speechCompleteTimeoutPresent <;>
        simp [voskRecogChannelRequestDispatch, hm, voskRecogChannelRecognize, hd,
          applyRecogHeader, timersAfterRecognizeHeader, hrh, hp, hn, hs]
  · simp [voskRecogChannelRequestDispatch, hmT, voskRecogChannelTimersStart]

/-- Shared DEFINE-GRAMMAR fields for requests that carry no grammar
body. -/
def dgNone : DefineGrammarData :=
  { regexMatches := false, matchLen := 0, parserCreated := false, feedOk := false,
    doneResult := none }

/-- A RECOGNIZE request carrying a Start-Input-Timers header with value
false. -/
def reqRecognizeHdr : Request :=
  { methodId := MethodId.recognize, hasDescriptor := true,
    recogHeader := some
      { startInputTimersPresent := true, startInputTimers := false,
        noInputTimeoutPresent := true, noInputTimeout := 5000,
        speechCompleteTimeoutPresent := false, speechCompleteTimeout := 0 },
    dg := dgNone }

/-- A START-INPUT-TIMERS request. -/
def reqTimers : Request :=
  { methodId := MethodId.startInputTimers, hasDescriptor := false,
    recogHeader := none, dg := dgNone }

/-- Witness for C10: a RECOGNIZE with Start-Input-Timers: false followed
by a START-INPUT-TIMERS request. -/
theorem recognize_sets_timers_c10_witness :
    reqRecognizeHdr.methodId = MethodId.recognize
  ∧ reqRecognizeHdr.hasDescriptor = true
  ∧ reqTimers.methodId = MethodId.startInputTimers
  ∧ ((voskRecogChannelRequestDispatch chInit reqRecognizeHdr).1.timersStarted
        = timersAfterRecognizeHeader reqRecognizeHdr.recogHeader
     ∧ (voskRecogChannelRequestDispatch chInit reqTimers).1.timersStarted = true) :=
  ⟨rfl, rfl, rfl,
   recognize_sets_timers_c10 chInit chInit reqRecognizeHdr reqTimers rfl rfl rfl⟩
